import Mathlib

/-!
Shallow embedding of the event-validation pipes of
src/common/pipes/event-validation.pipe.ts, together with proofs about the
validation rules they implement.

Conventions of the embedding:
- a datetime string of the request body is abstracted by the two observations
  the pipes make of it: the calendar-day part in front of the letter T
  (obtained in the source by splitting the string at T) and the epoch
  millisecond timestamp produced by the Date constructor;
- the current moment (new Date() in the source) is passed explicitly as an
  integer timestamp;
- JavaScript relational operators on mixed operands follow the ECMAScript
  numeric coercion rules: the null literal coerces to 0, an Invalid Date
  coerces to NaN, and every comparison against NaN is false;
- an absent (undefined) optional field is Option.none; JavaScript truthiness
  of each modelled value is spelled out next to its type;
- a fallible transform returns Except: Except.error models a thrown
  BadRequestException carrying the corresponding ERROR_MESSAGES entry, and
  Except.ok models the return of the record.
-/

/-- A datetime string, abstracted by the day part before the letter T and the
epoch millisecond timestamp the Date constructor produces for it. -/
structure JSDateTime where
  day : String
  ts : Int
deriving DecidableEq, Repr

/-- The value of the registration-date local variables in
RegistrationDateValidationPipe: the null literal (taken when
registrationEndDate is absent), an Invalid Date object (produced by the Date
constructor on an undefined field), or a valid Date with its timestamp. -/
inductive JSDateVal where
  | nullV : JSDateVal
  | invalid : JSDateVal
  | valid (t : Int) : JSDateVal
deriving DecidableEq, Repr

/-- Numeric coercion used by the JavaScript relational operators: the null
literal coerces to 0, an Invalid Date to NaN (modelled as none), and a valid
Date to its millisecond timestamp. -/
def JSDateVal.toNum : JSDateVal → Option Int
  | .nullV => some 0
  | .invalid => none
  | .valid t => some t

/-- The JavaScript operator < after numeric coercion; a comparison involving
NaN is false. -/
def jsLt (a b : JSDateVal) : Bool :=
  match a.toNum, b.toNum with
  | some x, some y => decide (x < y)
  | _, _ => false

/-- The JavaScript operator > after numeric coercion. -/
def jsGt (a b : JSDateVal) : Bool :=
  jsLt b a

/-- JavaScript truthiness: the null literal is falsy; every Date object, the
invalid ones included, is truthy. -/
def JSDateVal.truthy : JSDateVal → Bool
  | .nullV => false
  | .invalid => true
  | .valid _ => true

/-- The endCondition value of a recurrence pattern. Its declared type is not
part of the source snapshot, and the pipe observes the value only through
truthiness, the Number conversion (NaN modelled as none) and the Date
constructor (Invalid Date modelled as none), so the value is abstracted by
these three observations. The JSON number 0 is the triple
(false, some 0, some 0); a datetime string with timestamp t is
(true, none, some t); a decimal string such as a numeral is
(true, some q, d) with q its numeric value. -/
structure ECValue where
  truthy : Bool
  toNumber : Option Rat
  toDate : Option Int
deriving DecidableEq, Repr

/-- The endCondition object of a recurrence pattern with its two optional
keys. -/
structure EndCondition where
  type : Option String
  value : Option ECValue
deriving DecidableEq, Repr

/-- A recurrencePattern object: its optional endCondition key together with
the number of its other own enumerable keys, so that the length of
Object.keys is (if endCondition is present then 1 else 0) + otherKeys. -/
structure RecurrencePattern where
  endCondition : Option EndCondition
  otherKeys : Nat
deriving DecidableEq, Repr

/-- The length of Object.keys of a recurrencePattern object. -/
def RecurrencePattern.numKeys (p : RecurrencePattern) : Nat :=
  p.otherKeys + (if p.endCondition.isSome then 1 else 0)

/-- The params field of the record: either a mapping (object) with its list of
keys, or a value of non-object type. -/
inductive ParamsValue where
  | obj (keys : List String) : ParamsValue
  | nonObj : ParamsValue
deriving DecidableEq, Repr

/-- The candidate event record (CreateEventDto), restricted to the fields the
validation pipes read. -/
structure CreateEventDto where
  startDatetime : JSDateTime
  endDatetime : JSDateTime
  isRecurring : Bool
  isRestricted : Bool
  registrationStartDate : Option JSDateTime
  registrationEndDate : Option JSDateTime
  recurrencePattern : Option RecurrencePattern
  attendees : Option (List String)
  params : Option ParamsValue
deriving DecidableEq, Repr

/-- The failure kinds of the pipes, one per ERROR_MESSAGES entry thrown in the
source (plus the spec-described InvalidParamsShape of the restricted-params
validator and the messages of the search pipe). -/
inductive VError where
  | multidayEventNotRecurring
  | startDateInvalid
  | endDateInvalid
  | restrictedEventNoRegistrationDate
  | registrationStartDateInvalid
  | registrationEndDateInvalid
  | registrationStartDateBeforeEndDate
  | registrationStartDateBeforeEventDate
  | registrationEndDateBeforeEventDate
  | recurringPatternRequired
  | recurrenceEndDateInvalid
  | recurrenceEndDateShouldBeGreaterThanCurrentDate
  | recurrenceEndDateAfterEventDate
  | recurrenceOccurrencesInvalid
  | recurrencePatternInvalid
  | recurringPatternNotRequired
  | attendeesNotRequired
  | onlyOneOfDateFilters
  | dateNeedsBothBounds
  | startDateNeedsBothBounds
  | endDateNeedsBothBounds
  | combinedRangeNeedsBounds
  | invertedDateRange
  | invalidParamsShape
deriving DecidableEq, Repr

/-- DateValidationPipe.transform: rejects a multi-day recurring event, a start
not strictly in the future, and an end before the start, in that order. -/
def DateValidationPipe.transform (now : Int) (dto : CreateEventDto) :
    Except VError CreateEventDto :=
  if dto.startDatetime.day != dto.endDatetime.day && dto.isRecurring then
    .error .multidayEventNotRecurring
  else if dto.startDatetime.ts ≤ now then
    .error .startDateInvalid
  else if dto.endDatetime.ts < dto.startDatetime.ts then
    .error .endDateInvalid
  else
    .ok dto

/-- The Date constructor applied to an optional datetime field: an absent
field gives an Invalid Date (the Date constructor on undefined), a present
one a valid Date. -/
def parseDateField : Option JSDateTime → JSDateVal
  | some d => .valid d.ts
  | none => .invalid

/-- RegistrationDateValidationPipe.transform. Both registration-date local
variables are the null literal whenever registrationEndDate is absent (the
source conditions both ternaries on registrationEndDate); the subsequent
comparisons follow the JavaScript coercion rules of jsLt and jsGt. -/
def RegistrationDateValidationPipe.transform (now : Int) (dto : CreateEventDto) :
    Except VError CreateEventDto :=
  let currentDate : JSDateVal := .valid now
  let startDate : JSDateVal := .valid dto.startDatetime.ts
  let registrationStartDate : JSDateVal :=
    if dto.registrationEndDate.isSome then parseDateField dto.registrationStartDate
    else .nullV
  let isRestricted := dto.isRestricted
  let registrationEndDate : JSDateVal :=
    if dto.registrationEndDate.isSome then parseDateField dto.registrationEndDate
    else .nullV
  if (isRestricted && registrationStartDate.truthy) ||
      (isRestricted && registrationEndDate.truthy) then
    .error .restrictedEventNoRegistrationDate
  else if jsLt registrationStartDate currentDate && !isRestricted then
    .error .registrationStartDateInvalid
  else if jsLt registrationEndDate currentDate && !isRestricted then
    .error .registrationEndDateInvalid
  else if jsGt registrationStartDate registrationEndDate && !isRestricted then
    .error .registrationStartDateBeforeEndDate
  else if jsGt registrationStartDate startDate && !isRestricted then
    .error .registrationStartDateBeforeEventDate
  else if jsGt registrationEndDate startDate && !isRestricted then
    .error .registrationEndDateBeforeEventDate
  else
    .ok dto

/-- The optional chaining recurrencePattern endCondition value of the
record. -/
def CreateEventDto.endConditionValue (dto : CreateEventDto) : Option ECValue :=
  (dto.recurrencePattern.bind fun p => p.endCondition).bind fun c => c.value

/-- The optional chaining recurrencePattern endCondition type of the
record. -/
def CreateEventDto.endConditionType (dto : CreateEventDto) : Option String :=
  (dto.recurrencePattern.bind fun p => p.endCondition).bind fun c => c.type

/-- JavaScript truthiness of an optional string: undefined and the empty
string are falsy. -/
def optStrTruthy : Option String → Bool
  | some s => s != ""
  | none => false

/-- JavaScript truthiness of an optional endCondition value. -/
def optValTruthy : Option ECValue → Bool
  | some v => v.truthy
  | none => false

/-- The Number conversion of the optional endCondition value (undefined gives
NaN, modelled as none). -/
def jsNumberOf : Option ECValue → Option Rat
  | some v => v.toNumber
  | none => none

/-- The Date constructor applied to the optional endCondition value (none is
an Invalid Date). -/
def jsDateOf : Option ECValue → Option Int
  | some v => v.toDate
  | none => none

/-- The length of Object.keys of the recurrencePattern field after the
nullish coalescing with the empty object. -/
def CreateEventDto.patternKeys (dto : CreateEventDto) : Nat :=
  match dto.recurrencePattern with
  | some p => p.numKeys
  | none => 0

/-- RecurringEndDateValidationPipe.transform. Modelled from the spec: the
EndConditionType enum of src/common/utils/types is not part of the source
snapshot; following the spec its members endDate and occurrences are the
strings "endDate" and "occurrences", which the source compares with the
endCondition type. Everything else is translated from the source. -/
def RecurringEndDateValidationPipe.transform (now : Int) (dto : CreateEventDto) :
    Except VError CreateEventDto :=
  if dto.isRecurring then
    let endConditionValue := dto.endConditionValue
    let endConditionType := dto.endConditionType
    if !optStrTruthy endConditionType || !optValTruthy endConditionValue then
      .error .recurringPatternRequired
    else if endConditionType == some "endDate" then
      match jsDateOf endConditionValue with
      | none => .error .recurrenceEndDateInvalid
      | some recurrenceEndDate =>
        if recurrenceEndDate < now then
          .error .recurrenceEndDateShouldBeGreaterThanCurrentDate
        else if recurrenceEndDate ≤ dto.startDatetime.ts then
          .error .recurrenceEndDateAfterEventDate
        else
          .ok dto
    else if endConditionType == some "occurrences" then
      match jsNumberOf endConditionValue with
      | none => .error .recurrenceOccurrencesInvalid
      | some occurrences =>
        if occurrences < 1 then
          .error .recurrenceOccurrencesInvalid
        else
          .ok dto
    else
      .error .recurrencePatternInvalid
  else if dto.patternKeys != 0 then
    .error .recurringPatternNotRequired
  else
    .ok dto

/-- AttendeesValidationPipe.transform: a non-restricted event must not carry a
non-empty attendees array. -/
def AttendeesValidationPipe.transform (dto : CreateEventDto) :
    Except VError CreateEventDto :=
  if !dto.isRestricted then
    if dto.attendees.isSome && (dto.attendees.getD []).length != 0 then
      .error .attendeesNotRequired
    else
      .ok dto
  else
    .ok dto

/-- Modelled from the spec: the restricted-event parameters validator of
section 4.5 is not part of the source snapshot. If isRestricted is true,
params must be present and be a mapping (object) type, and the validator
fails with InvalidParamsShape otherwise; if isRestricted is false, params is
normalized to an empty mapping before the record is returned. -/
def ParamsValidationPipe.transform (dto : CreateEventDto) :
    Except VError CreateEventDto :=
  if dto.isRestricted then
    match dto.params with
    | some (.obj _) => .ok dto
    | _ => .error .invalidParamsShape
  else
    .ok { dto with params := some (.obj []) }

/-- The event-creation validation chain, in the order the spec lists the
validators; the first failure aborts the chain. -/
def validateEvent (now : Int) (dto : CreateEventDto) :
    Except VError CreateEventDto :=
  (DateValidationPipe.transform now dto).bind fun d1 =>
  (RegistrationDateValidationPipe.transform now d1).bind fun d2 =>
  (RecurringEndDateValidationPipe.transform now d2).bind fun d3 =>
  AttendeesValidationPipe.transform d3

/-- A date range of the search filter; each bound is abstracted by its
presence (an absent or empty bound is none) and the timestamp the Date
constructor produces for it. -/
structure DateRangeFilter where
  after : Option Int
  before : Option Int
deriving DecidableEq, Repr

/-- The filters object of a search query. -/
structure SearchFilters where
  date : Option DateRangeFilter
  startDate : Option DateRangeFilter
  endDate : Option DateRangeFilter
deriving DecidableEq, Repr

/-- The search query value: its optional filters object. -/
structure SearchQuery where
  filters : Option SearchFilters
deriving DecidableEq, Repr

/-- The after bound of an optional range object. -/
def rangeAfter : Option DateRangeFilter → Option Int
  | some r => r.after
  | none => none

/-- The before bound of an optional range object. -/
def rangeBefore : Option DateRangeFilter → Option Int
  | some r => r.before
  | none => none

/-- The JavaScript comparison of two parsed bounds with the operator >; an
absent bound parses to an Invalid Date, and a comparison involving NaN is
false. -/
def optDateGt (a b : Option Int) : Bool :=
  match a, b with
  | some x, some y => decide (y < x)
  | _, _ => false

/-- SearchDateValidationPipe.transform, translated check for check from the
source. -/
def SearchDateValidationPipe.transform (q : SearchQuery) :
    Except VError SearchQuery :=
  let fs := q.filters.getD ⟨none, none, none⟩
  let date := fs.date
  let startDate := fs.startDate
  let endDate := fs.endDate
  if date.isSome && (startDate.isSome || endDate.isSome) then
    .error .onlyOneOfDateFilters
  else if date.isSome && (!(rangeAfter date).isSome || !(rangeBefore date).isSome) then
    .error .dateNeedsBothBounds
  else if startDate.isSome && (!(rangeAfter startDate).isSome || !(rangeBefore startDate).isSome)
      && endDate.isNone then
    .error .startDateNeedsBothBounds
  else if endDate.isSome && (!(rangeAfter endDate).isSome || !(rangeBefore endDate).isSome)
      && startDate.isNone then
    .error .endDateNeedsBothBounds
  else if startDate.isSome && endDate.isSome
      && (!(rangeAfter startDate).isSome || !(rangeBefore endDate).isSome) then
    .error .combinedRangeNeedsBounds
  else if (date.isSome && optDateGt (rangeAfter date) (rangeBefore date))
      || (startDate.isSome && endDate.isNone
        && optDateGt (rangeAfter startDate) (rangeBefore startDate))
      || (endDate.isSome && startDate.isNone
        && optDateGt (rangeAfter endDate) (rangeBefore endDate))
      || (startDate.isSome && endDate.isSome
        && optDateGt (rangeAfter startDate) (rangeBefore endDate)) then
    .error .invertedDateRange
  else
    .ok q

/-- A fixed plain future event record used by the concrete witnesses: start
and end on the same calendar day, timestamps 2000 and 3000, every optional
field absent, not recurring and not restricted. -/
def baseDto : CreateEventDto :=
  { startDatetime := ⟨"2099-01-01", 2000⟩
    endDatetime := ⟨"2099-01-01", 3000⟩
    isRecurring := false
    isRestricted := false
    registrationStartDate := none
    registrationEndDate := none
    recurrencePattern := none
    attendees := none
    params := none }

/-- The Date constructor on an optional datetime field always yields a truthy
object. -/
theorem parseDateField_truthy (x : Option JSDateTime) :
    (parseDateField x).truthy = true := by
  cases x <;> rfl

/-- DateValidationPipe either fails or returns its input unchanged. -/
theorem dateValidationFrame (now : Int) (dto : CreateEventDto) :
    DateValidationPipe.transform now dto = .ok dto ∨
      ∃ e, DateValidationPipe.transform now dto = .error e := by
  simp only [DateValidationPipe.transform]
  repeat' split
  all_goals first
    | exact .inl rfl
    | exact .inr ⟨_, rfl⟩

/-- RegistrationDateValidationPipe either fails or returns its input
unchanged. -/
theorem registrationDateValidationFrame (now : Int) (dto : CreateEventDto) :
    RegistrationDateValidationPipe.transform now dto = .ok dto ∨
      ∃ e, RegistrationDateValidationPipe.transform now dto = .error e := by
  simp only [RegistrationDateValidationPipe.transform]
  repeat' split
  all_goals first
    | exact .inl rfl
    | exact .inr ⟨_, rfl⟩

/-- RecurringEndDateValidationPipe either fails or returns its input
unchanged. -/
theorem recurringEndDateValidationFrame (now : Int) (dto : CreateEventDto) :
    RecurringEndDateValidationPipe.transform now dto = .ok dto ∨
      ∃ e, RecurringEndDateValidationPipe.transform now dto = .error e := by
  simp only [RecurringEndDateValidationPipe.transform]
  repeat' split
  all_goals first
    | exact .inl rfl
    | exact .inr ⟨_, rfl⟩

/-- AttendeesValidationPipe either fails or returns its input unchanged. -/
theorem attendeesValidationFrame (dto : CreateEventDto) :
    AttendeesValidationPipe.transform dto = .ok dto ∨
      ∃ e, AttendeesValidationPipe.transform dto = .error e := by
  simp only [AttendeesValidationPipe.transform]
  repeat' split
  all_goals first
    | exact .inl rfl
    | exact .inr ⟨_, rfl⟩

/-- SearchDateValidationPipe either fails or returns its input unchanged. -/
theorem searchDateValidationFrame (q : SearchQuery) :
    SearchDateValidationPipe.transform q = .ok q ∨
      ∃ e, SearchDateValidationPipe.transform q = .error e := by
  simp only [SearchDateValidationPipe.transform]
  repeat' split
  all_goals first
    | exact .inl rfl
    | exact .inr ⟨_, rfl⟩

/-- Claim C10: every validator of the chain (DateValidationPipe,
RegistrationDateValidationPipe, RecurringEndDateValidationPipe,
AttendeesValidationPipe, SearchDateValidationPipe) either signals a failure
or returns its input record with every field unchanged. -/
theorem c10_validators_frame :
    (∀ now dto, DateValidationPipe.transform now dto = .ok dto ∨
      ∃ e, DateValidationPipe.transform now dto = .error e)
    ∧ (∀ now dto, RegistrationDateValidationPipe.transform now dto = .ok dto ∨
      ∃ e, RegistrationDateValidationPipe.transform now dto = .error e)
    ∧ (∀ now dto, RecurringEndDateValidationPipe.transform now dto = .ok dto ∨
      ∃ e, RecurringEndDateValidationPipe.transform now dto = .error e)
    ∧ (∀ dto, AttendeesValidationPipe.transform dto = .ok dto ∨
      ∃ e, AttendeesValidationPipe.transform dto = .error e)
    ∧ (∀ q, SearchDateValidationPipe.transform q = .ok q ∨
      ∃ e, SearchDateValidationPipe.transform q = .error e) :=
  ⟨dateValidationFrame, registrationDateValidationFrame,
    recurringEndDateValidationFrame, attendeesValidationFrame,
    searchDateValidationFrame⟩

/-- Claim C5: whenever the start timestamp is at or before the current moment,
DateValidationPipe fails with some validation error, whatever the other
fields hold (when the multi-day recurring rule is also violated the reported
error is the multi-day one, but the pipe still fails). -/
theorem c5_past_start_always_fails (now : Int) (dto : CreateEventDto)
    (h : dto.startDatetime.ts ≤ now) :
    ∃ e, DateValidationPipe.transform now dto = .error e := by
  simp only [DateValidationPipe.transform]
  split
  · exact ⟨_, rfl⟩
  · simp [h]

/-- Witness for C5: a record whose start timestamp 2000 is before the moment
2500 is rejected. -/
theorem c5_past_start_always_fails_witness :
    ∃ e, DateValidationPipe.transform 2500 baseDto = .error e :=
  c5_past_start_always_fails 2500 baseDto (by decide)

/-- Claim C6: a recurring record whose start and end date parts differ is
rejected with the multi-day error, before the start-in-future and
end-before-start checks are consulted (the result does not depend on the
timestamps or the current moment). -/
theorem c6_multiday_recurring_fails_first (now : Int) (dto : CreateEventDto)
    (hrec : dto.isRecurring = true)
    (hday : dto.startDatetime.day ≠ dto.endDatetime.day) :
    DateValidationPipe.transform now dto = .error .multidayEventNotRecurring := by
  simp only [DateValidationPipe.transform]
  rw [if_pos]
  simp [hrec, hday]

/-- Witness for C6: a recurring record spanning two calendar days is rejected
with the multi-day error even though its timestamps are in the future. -/
theorem c6_multiday_recurring_fails_first_witness :
    DateValidationPipe.transform 0
        { baseDto with isRecurring := true, endDatetime := ⟨"2099-01-02", 3000⟩ }
      = .error .multidayEventNotRecurring :=
  c6_multiday_recurring_fails_first 0
    { baseDto with isRecurring := true, endDatetime := ⟨"2099-01-02", 3000⟩ }
    rfl (by decide)

/-- Claim C1: the spec states this scenario passes the whole chain, but the
code rejects it. For every record with a future start, an end at or after the
start on the same calendar day, not recurring, not restricted, and no
registration dates, the DateValidationPipe passes the record on, yet
RegistrationDateValidationPipe rejects it with the
registration-start-in-the-past error: the absent registration dates leave the
local variables at the null literal, and the JavaScript comparison of null
with the current Date coerces null to 0, which is below any positive current
timestamp. The chain therefore fails instead of passing. -/
theorem c1_plain_future_event_rejected (now : Int) (dto : CreateEventDto)
    (hnow : 0 < now)
    (hstart : now < dto.startDatetime.ts)
    (hend : dto.startDatetime.ts ≤ dto.endDatetime.ts)
    (hday : dto.startDatetime.day = dto.endDatetime.day)
    (hrec : dto.isRecurring = false)
    (hres : dto.isRestricted = false)
    (_hrs : dto.registrationStartDate = none)
    (hre : dto.registrationEndDate = none) :
    DateValidationPipe.transform now dto = .ok dto
    ∧ RegistrationDateValidationPipe.transform now dto
        = .error .registrationStartDateInvalid
    ∧ validateEvent now dto = .error .registrationStartDateInvalid := by
  have h1 : DateValidationPipe.transform now dto = .ok dto := by
    simp only [DateValidationPipe.transform]
    simp [hday, hrec, not_le.mpr hstart, not_lt.mpr hend]
  have h2 : RegistrationDateValidationPipe.transform now dto
      = .error .registrationStartDateInvalid := by
    simp only [RegistrationDateValidationPipe.transform]
    simp [hre, hres, jsLt, JSDateVal.toNum, JSDateVal.truthy, hnow]
  refine ⟨h1, h2, ?_⟩
  simp [validateEvent, Except.bind, h1, h2]

/-- Witness for C1: the plain future record of the spec scenario is rejected
by the chain at the registration pipe. -/
theorem c1_plain_future_event_rejected_witness :
    DateValidationPipe.transform 1000 baseDto = .ok baseDto
    ∧ RegistrationDateValidationPipe.transform 1000 baseDto
        = .error .registrationStartDateInvalid
    ∧ validateEvent 1000 baseDto = .error .registrationStartDateInvalid :=
  c1_plain_future_event_rejected 1000 baseDto (by decide) (by decide) (by decide)
    rfl rfl rfl rfl rfl

/-- Claim C2 counterexample: a restricted record carrying only
registrationStartDate (registrationEndDate absent) is returned by
RegistrationDateValidationPipe instead of being rejected, because the
presence of both registration-date variables is gated on registrationEndDate
alone. -/
theorem c2_restricted_only_start_passes :
    RegistrationDateValidationPipe.transform 1000
        { baseDto with isRestricted := true, registrationStartDate := some ⟨"2099-01-01", 1500⟩ }
      = .ok { baseDto with isRestricted := true, registrationStartDate := some ⟨"2099-01-01", 1500⟩ } := by
  rfl

/-- Claim C2 (amended): for a restricted record,
RegistrationDateValidationPipe fails with the restricted-event error exactly
when registrationEndDate is set; when registrationEndDate is absent the
record is returned, even if registrationStartDate is set. -/
theorem c2_restricted_error_iff_end_date_present (now : Int) (dto : CreateEventDto)
    (hres : dto.isRestricted = true) :
    (RegistrationDateValidationPipe.transform now dto
        = .error .restrictedEventNoRegistrationDate
      ↔ dto.registrationEndDate.isSome = true)
    ∧ (dto.registrationEndDate = none →
      RegistrationDateValidationPipe.transform now dto = .ok dto) := by
  simp only [RegistrationDateValidationPipe.transform]
  cases h : dto.registrationEndDate with
  | none => simp [h, hres, JSDateVal.truthy]
  | some d => simp [h, hres, parseDateField_truthy]

/-- Witness for C2 (amended): a restricted record with registrationEndDate
set is rejected with the restricted-event error. -/
theorem c2_restricted_error_iff_end_date_present_witness :
    RegistrationDateValidationPipe.transform 1000
        { baseDto with isRestricted := true, registrationEndDate := some ⟨"2099-01-01", 1500⟩ }
      = .error .restrictedEventNoRegistrationDate :=
  ((c2_restricted_error_iff_end_date_present 1000
      { baseDto with isRestricted := true, registrationEndDate := some ⟨"2099-01-01", 1500⟩ } rfl).1).mpr rfl

/-- Claim C8: for a non-recurring record, RecurringEndDateValidationPipe
fails with the pattern-not-required error exactly when the recurrencePattern
object has at least one key; when the pattern is absent or empty the record
is returned unchanged. -/
theorem c8_pattern_not_required_iff_nonempty (now : Int) (dto : CreateEventDto)
    (hrec : dto.isRecurring = false) :
    (RecurringEndDateValidationPipe.transform now dto
        = .error .recurringPatternNotRequired ↔ dto.patternKeys ≠ 0)
    ∧ (dto.patternKeys = 0 →
      RecurringEndDateValidationPipe.transform now dto = .ok dto) := by
  simp only [RecurringEndDateValidationPipe.transform, hrec]
  by_cases h : dto.patternKeys = 0 <;> simp [h]

/-- Witness for C8: a non-recurring record with a one-key recurrencePattern
is rejected with the pattern-not-required error. -/
theorem c8_pattern_not_required_iff_nonempty_witness :
    RecurringEndDateValidationPipe.transform 1000
        { baseDto with recurrencePattern := some ⟨none, 1⟩ }
      = .error .recurringPatternNotRequired :=
  ((c8_pattern_not_required_iff_nonempty 1000
      { baseDto with recurrencePattern := some ⟨none, 1⟩ } rfl).1).mpr (by decide)

/-- Claim C3 counterexample: with a recurrence end condition of type
occurrences and the JSON number 0 as value, the pipe rejects the record with
the pattern-required error, not the occurrences-invalid error the claim
names: the number 0 is falsy, so the missing-pattern check fires first. -/
theorem c3_numeric_zero_gives_pattern_required :
    RecurringEndDateValidationPipe.transform 1000
        { baseDto with isRecurring := true, recurrencePattern := some ⟨some ⟨some "occurrences", some ⟨false, some 0, some 0⟩⟩, 0⟩ }
      = .error .recurringPatternRequired
    ∧ VError.recurringPatternRequired ≠ VError.recurrenceOccurrencesInvalid :=
  ⟨rfl, by decide⟩

/-- Claim C3 (amended): for a recurring record whose end condition type is
occurrences, a falsy value (such as the JSON number 0) is rejected with the
pattern-required error; a truthy value is rejected with the
occurrences-invalid error exactly when its Number conversion is NaN or below
1, and accepted otherwise (any numeric value at least 1, integer or not). -/
theorem c3_occurrences_branch (now : Int) (dto : CreateEventDto) (v : ECValue)
    (hrec : dto.isRecurring = true)
    (htype : dto.endConditionType = some "occurrences")
    (hval : dto.endConditionValue = some v) :
    (v.truthy = false →
      RecurringEndDateValidationPipe.transform now dto
        = .error .recurringPatternRequired)
    ∧ (v.truthy = true → v.toNumber = none →
      RecurringEndDateValidationPipe.transform now dto
        = .error .recurrenceOccurrencesInvalid)
    ∧ (∀ q : Rat, v.truthy = true → v.toNumber = some q → q < 1 →
      RecurringEndDateValidationPipe.transform now dto
        = .error .recurrenceOccurrencesInvalid)
    ∧ (∀ q : Rat, v.truthy = true → v.toNumber = some q → 1 ≤ q →
      RecurringEndDateValidationPipe.transform now dto = .ok dto) := by
  refine ⟨?_, ?_, ?_, ?_⟩
  · intro h
    simp [RecurringEndDateValidationPipe.transform, hrec, htype, hval,
      optStrTruthy, optValTruthy, h]
  · intro h1 h2
    simp [RecurringEndDateValidationPipe.transform, hrec, htype, hval,
      optStrTruthy, optValTruthy, jsNumberOf, h1, h2]
  · intro q h1 h2 hq
    simp [RecurringEndDateValidationPipe.transform, hrec, htype, hval,
      optStrTruthy, optValTruthy, jsNumberOf, h1, h2, hq]
  · intro q h1 h2 hq
    simp [RecurringEndDateValidationPipe.transform, hrec, htype, hval,
      optStrTruthy, optValTruthy, jsNumberOf, h1, h2, hq.not_lt]

/-- Witness for C3 (amended): the string value holding the numeral 0 is
truthy, converts to the number 0, and is rejected with the
occurrences-invalid error. -/
theorem c3_occurrences_branch_witness :
    RecurringEndDateValidationPipe.transform 1000
        { baseDto with isRecurring := true, recurrencePattern := some ⟨some ⟨some "occurrences", some ⟨true, some 0, some 0⟩⟩, 0⟩ }
      = .error .recurrenceOccurrencesInvalid :=
  ((c3_occurrences_branch 1000
      { baseDto with isRecurring := true, recurrencePattern := some ⟨some ⟨some "occurrences", some ⟨true, some 0, some 0⟩⟩, 0⟩ }
      ⟨true, some 0, some 0⟩ rfl rfl rfl).2.2.1 0 rfl rfl (by decide))

/-- Claim C7 counterexample: a recurrence end date exactly equal to the
current moment (timestamp 1000, start of the event at 500) passes the pipe
instead of failing with the must-be-future error: the source only rejects
recurrence end dates strictly below the current moment. -/
theorem c7_end_equal_now_passes :
    RecurringEndDateValidationPipe.transform 1000
        { baseDto with startDatetime := ⟨"2099-01-01", 500⟩, endDatetime := ⟨"2099-01-01", 600⟩, isRecurring := true, recurrencePattern := some ⟨some ⟨some "endDate", some ⟨true, none, some 1000⟩⟩, 0⟩ }
      = .ok { baseDto with startDatetime := ⟨"2099-01-01", 500⟩, endDatetime := ⟨"2099-01-01", 600⟩, isRecurring := true, recurrencePattern := some ⟨some ⟨some "endDate", some ⟨true, none, some 1000⟩⟩, 0⟩ } :=
  rfl

/-- Claim C7 (amended): for a recurring record with end condition type
endDate and a truthy value parsing to a valid date, the pipe fails with the
must-be-future error exactly on end dates strictly before the current moment
(an end date equal to the current moment passes this check), fails with the
before-event error when the end date is at or before the event start, and
passes otherwise. -/
theorem c7_end_date_bounds (now : Int) (dto : CreateEventDto) (v : ECValue) (t : Int)
    (hrec : dto.isRecurring = true)
    (htype : dto.endConditionType = some "endDate")
    (hval : dto.endConditionValue = some v)
    (htr : v.truthy = true)
    (hdate : v.toDate = some t) :
    (t < now →
      RecurringEndDateValidationPipe.transform now dto
        = .error .recurrenceEndDateShouldBeGreaterThanCurrentDate)
    ∧ (now ≤ t → t ≤ dto.startDatetime.ts →
      RecurringEndDateValidationPipe.transform now dto
        = .error .recurrenceEndDateAfterEventDate)
    ∧ (now ≤ t → dto.startDatetime.ts < t →
      RecurringEndDateValidationPipe.transform now dto = .ok dto) := by
  refine ⟨?_, ?_, ?_⟩
  · intro h
    simp [RecurringEndDateValidationPipe.transform, hrec, htype, hval,
      optStrTruthy, optValTruthy, jsDateOf, htr, hdate, h]
  · intro h1 h2
    simp [RecurringEndDateValidationPipe.transform, hrec, htype, hval,
      optStrTruthy, optValTruthy, jsDateOf, htr, hdate, not_lt.mpr h1, h2]
  · intro h1 h2
    simp [RecurringEndDateValidationPipe.transform, hrec, htype, hval,
      optStrTruthy, optValTruthy, jsDateOf, htr, hdate, not_lt.mpr h1,
      not_le.mpr h2]

/-- Witness for C7 (amended): an end date strictly before the current moment
is rejected with the must-be-future error. -/
theorem c7_end_date_bounds_witness :
    RecurringEndDateValidationPipe.transform 1000
        { baseDto with startDatetime := ⟨"2099-01-01", 500⟩, endDatetime := ⟨"2099-01-01", 600⟩, isRecurring := true, recurrencePattern := some ⟨some ⟨some "endDate", some ⟨true, none, some 900⟩⟩, 0⟩ }
      = .error .recurrenceEndDateShouldBeGreaterThanCurrentDate :=
  ((c7_end_date_bounds 1000
      { baseDto with startDatetime := ⟨"2099-01-01", 500⟩, endDatetime := ⟨"2099-01-01", 600⟩, isRecurring := true, recurrencePattern := some ⟨some ⟨some "endDate", some ⟨true, none, some 900⟩⟩, 0⟩ }
      ⟨true, none, some 900⟩ 900 rfl rfl rfl rfl rfl).1 (by decide))

/-- Claim C4: the restricted-event parameters validator, modelled from the
spec. For a restricted record the validator returns the record exactly when
params is a present mapping, and fails with the invalid-params-shape error
otherwise; for a non-restricted record it returns the record with params
normalized to the empty mapping. -/
theorem c4_params_validator_contract (dto : CreateEventDto) :
    (dto.isRestricted = true →
      (∀ ks, dto.params = some (.obj ks) →
        ParamsValidationPipe.transform dto = .ok dto)
      ∧ ((∀ ks, dto.params ≠ some (.obj ks)) →
        ParamsValidationPipe.transform dto = .error .invalidParamsShape))
    ∧ (dto.isRestricted = false →
      ParamsValidationPipe.transform dto
        = .ok { dto with params := some (.obj []) }) := by
  constructor
  · intro hres
    constructor
    · intro ks hks
      simp [ParamsValidationPipe.transform, hres, hks]
    · intro hks
      rcases h : dto.params with _ | (ks | _)
      · simp [ParamsValidationPipe.transform, hres, h]
      · exact absurd h (hks ks)
      · simp [ParamsValidationPipe.transform, hres, h]
  · intro hres
    simp [ParamsValidationPipe.transform, hres]

/-- Witness for C4: a restricted record with an empty params mapping is
accepted by the modelled validator. -/
theorem c4_params_validator_contract_witness :
    ParamsValidationPipe.transform { baseDto with isRestricted := true, params := some (.obj []) }
      = .ok { baseDto with isRestricted := true, params := some (.obj []) } :=
  ((c4_params_validator_contract
      { baseDto with isRestricted := true, params := some (.obj []) }).1 rfl).1 [] rfl

/-- Claim C9: for a search filter providing both startDate and endDate (and
no date filter, which would short-circuit into the ambiguity error) with the
after bound of startDate and the before bound of endDate present, the pipe
fails with the inverted-range error exactly when the startDate after bound
is above the endDate before bound; the inner bounds (before of startDate and
after of endDate) are arbitrary and take no part in the comparison. -/
theorem c9_inverted_combined_range_iff (sb ea : Option Int) (a b : Int) :
    SearchDateValidationPipe.transform
        ⟨some ⟨none, some ⟨some a, sb⟩, some ⟨ea, some b⟩⟩⟩
      = .error .invertedDateRange ↔ b < a := by
  simp only [SearchDateValidationPipe.transform]
  by_cases hba : b < a <;>
    simp [rangeAfter, rangeBefore, optDateGt, hba]
